import Mathlib

/-!
Shallow embedding of the tenant-isolation and subscription-enforcement layer
of the `edi_transactions` Django app: the feature-availability checks
(`subscription.py:is_feature_available`, `permissions.py:HasSubscriptionFeature`),
the limit enforcer (`utils/subscriptions.py:check_subscription_limits`,
`permissions.py:CheckTransactionLimit` / `CheckUserLimit`), the subscription
state evaluation and gate rejections in `middleware.py:CompanyMiddleware`,
the rate limiter in `middleware.py:RateLimitMiddleware`, the registration
transaction in `auth_views.py:RegisterView.post`, and the best-effort usage
logging in `CompanyMiddleware.process_response`.

Database rows become explicit record values, querysets become lists, and
`timezone.now()` becomes an explicit `now` / `today` argument, so every
function is pure and executable.
-/

namespace EdiTransactions

/-- A JSON value as stored in a `JSONField` feature/permission map
(booleans, integers and strings are the value types used by the plans
created in this repository). -/
inductive JsonVal where
  | b (x : Bool)
  | i (n : Int)
  | s (t : String)
deriving DecidableEq, Repr

/-- Python truthiness of a JSON value: `False`, `0` and `""` are falsy. -/
def JsonVal.truthy : JsonVal → Bool
  | .b x => x
  | .i n => n != 0
  | .s t => t != ""

/-- A calendar date (`datetime.date`): year, month, day. -/
structure Date where
  year : Int
  month : Nat
  day : Nat
deriving DecidableEq, Repr

/-- Strict lexicographic order on dates, the meaning of `<` on
`datetime.date` values. -/
def Date.ltB (a b : Date) : Bool :=
  if a.year < b.year then true
  else if b.year < a.year then false
  else if a.month < b.month then true
  else if b.month < a.month then false
  else decide (a.day < b.day)

/-- A timestamp (`datetime.datetime`): a date plus the second within the day. -/
structure DateTime where
  date : Date
  sec : Nat
deriving DecidableEq, Repr

/-- Non-strict lexicographic order on timestamps, the meaning of `<=` /
`__gte` on `datetime.datetime` values. -/
def DateTime.leB (a b : DateTime) : Bool :=
  if Date.ltB a.date b.date then true
  else if Date.ltB b.date a.date then false
  else decide (a.sec ≤ b.sec)

/-- A row of the `subscription_plans` table (`models.SubscriptionPlan`).
`features` is an optional JSON object (`none` models a JSON null, which the
code guards against with `or {}` / `or []`). -/
structure SubscriptionPlan where
  name : String
  max_users : Int
  max_transactions_monthly : Int
  features : Option (List (String × JsonVal))
  is_active : Bool
deriving DecidableEq, Repr

/-- The subscription fields of a `companies` row (`models.Company`) that the
enforcement layer reads. `subscription_plan = none` models a missing plan
reference, which `subscription.py` guards against. -/
structure Company where
  subscription_plan : Option SubscriptionPlan
  subscription_status : String
  subscription_start_date : Option Date
  subscription_end_date : Option Date
deriving DecidableEq, Repr

/-- `plan.features or {}` / `plan.features or []`: a null (or empty) feature
map is replaced by an empty one. -/
def featuresOrEmpty (plan : SubscriptionPlan) : List (String × JsonVal) :=
  match plan.features with
  | none => []
  | some fs => fs

/-- Python `feature_name in features` on a dict: key membership, ignoring
the stored value. -/
def keyMem (f : String) (fs : List (String × JsonVal)) : Bool :=
  fs.any (fun kv => kv.fst == f)

/-- `company.subscription_end_date and company.subscription_end_date < today`:
true when the end date is set and strictly before `today`. -/
def endDateBefore (ed : Option Date) (today : Date) : Bool :=
  match ed with
  | some d => Date.ltB d today
  | none => false

/-- `subscription.py:is_feature_available(company, feature_name)` with
`timezone.now().date()` passed in as `today`: requires an active plan, a
status of ACTIVE or TRIAL, an end date (if any) not strictly in the past,
and then tests `feature_name in features` — key presence. -/
def is_feature_available (company : Company) (feature_name : String) (today : Date) : Bool :=
  match company.subscription_plan with
  | none => false
  | some plan =>
    if !plan.is_active then false
    else if !(company.subscription_status == "ACTIVE" || company.subscription_status == "TRIAL") then
      false
    else if endDateBefore company.subscription_end_date today then false
    else keyMem feature_name (featuresOrEmpty plan)

/-- The four derived subscription states of the spec's evaluator. -/
inductive SubState where
  | VALID
  | TRIAL_EXPIRED
  | SUSPENDED
  | CANCELLED
deriving DecidableEq, Repr

/-- The subscription-state checks of `CompanyMiddleware.process_request`, in
the code's order: trial expiry first, then SUSPENDED, then CANCELLED, and
VALID when no check fires. (`process_request` does not read
`subscription_start_date`.) -/
def evalStateMiddleware (status : String) (end_date : Option Date) (today : Date) : SubState :=
  if status == "TRIAL" && endDateBefore end_date today then .TRIAL_EXPIRED
  else if status == "SUSPENDED" then .SUSPENDED
  else if status == "CANCELLED" then .CANCELLED
  else .VALID

/-- Modelled from the spec: the Subscription State Evaluator of §4.2, a pure
function of (status, start_date, end_date, now) with first-match-wins
precedence SUSPENDED, CANCELLED, TRIAL_EXPIRED, VALID. Stated for
comparison with `evalStateMiddleware`, which embeds the code. -/
def evalStateSpec (status : String) (start_date end_date : Option Date) (today : Date) : SubState :=
  if status == "SUSPENDED" then .SUSPENDED
  else if status == "CANCELLED" then .CANCELLED
  else if status == "TRIAL" && endDateBefore end_date today then .TRIAL_EXPIRED
  else .VALID

/-- The outcome of a DRF `has_permission` call: it may return `True`
(granted), return `False` (refused), or raise `PermissionDenied msg`. -/
inductive PermResult where
  | granted
  | refused
  | denied (msg : String)
deriving DecidableEq, Repr

/-- `permissions.py:IsCompanyUser.has_permission`, with the authenticated
user's active membership lookup passed in as `membership` (`none` when
`CompanyUser.DoesNotExist`) and `timezone.now().date()` as `today`:
refuses unauthenticated users and users with no active membership, raises
for SUSPENDED / CANCELLED / expired-TRIAL companies, and grants otherwise. -/
def IsCompanyUser_has_permission (authenticated : Bool) (membership : Option Company)
    (today : Date) : PermResult :=
  if !authenticated then .refused
  else
    match membership with
    | none => .refused
    | some company =>
      if company.subscription_status == "SUSPENDED" then
        .denied "Company subscription is suspended."
      else if company.subscription_status == "CANCELLED" then
        .denied "Company subscription has been cancelled."
      else if company.subscription_status == "TRIAL" &&
          endDateBefore company.subscription_end_date today then
        .denied "Trial subscription has expired. Please upgrade your plan."
      else .granted

/-- `permissions.py:HasSubscriptionFeature.has_permission`: runs the
`IsCompanyUser` check first, then (when a `feature_name` is configured)
tests `features.get(self.feature_name, False)` for truthiness, raising
`PermissionDenied` when falsy. The company's plan reference is never null
at this point (the `companies.subscription_plan` column is a non-null
foreign key); the `none` branch is unreachable on real rows. -/
def HasSubscriptionFeature_has_permission (authenticated : Bool) (membership : Option Company)
    (today : Date) (feature_name : Option String) : PermResult :=
  match IsCompanyUser_has_permission authenticated membership today with
  | .refused => .refused
  | .denied m => .denied m
  | .granted =>
    match feature_name with
    | none => .granted
    | some fname =>
      match membership with
      | none => .refused
      | some company =>
        match company.subscription_plan with
        | none => .refused
        | some plan =>
          let features := featuresOrEmpty plan
          if !(JsonVal.truthy (((features.lookup fname).getD (.b false)))) then
            .denied ("This feature (" ++ fname ++ ") is not available in your subscription plan.")
          else .granted

/-- `utils/subscriptions.py:check_subscription_limits(company, limit_type)`
with the two database counts passed in: `userCount` is the number of active
memberships, `txCount` the number of the tenant's transactions with
`created_at >= timezone.now().replace(day=1)`. Returns `(allowed, message)`. -/
def check_subscription_limits (plan : SubscriptionPlan) (limit_type : String)
    (userCount txCount : Nat) : Bool × String :=
  if limit_type == "users" then
    let current_count : Int := userCount
    let max_count := plan.max_users
    if current_count ≥ max_count then
      (false, "Users limit reached (" ++ toString max_count ++ ")")
    else
      (true, toString (max_count - current_count) ++ " users remaining")
  else if limit_type == "transactions" then
    let current_count : Int := txCount
    let max_count := plan.max_transactions_monthly
    if current_count ≥ max_count then
      (false, "Transactions limit reached (" ++ toString max_count ++ ")")
    else
      (true, toString (max_count - current_count) ++ " transactions remaining")
  else (false, "Unknown limit type")

/-- `permissions.py:CheckTransactionLimit.has_permission`: after the
`IsCompanyUser` check (its result passed in as `basic`), POST requests are
denied when the current-month transaction count has reached
`plan.max_transactions_monthly`. -/
def CheckTransactionLimit_has_permission (basic : PermResult) (method : String)
    (plan : SubscriptionPlan) (monthly_count : Nat) : PermResult :=
  match basic with
  | .refused => .refused
  | .denied m => .denied m
  | .granted =>
    if method != "POST" then .granted
    else if (monthly_count : Int) ≥ plan.max_transactions_monthly then
      .denied ("Monthly transaction limit (" ++ toString plan.max_transactions_monthly ++
        ") reached. Please upgrade your subscription plan.")
    else .granted

/-- `permissions.py:CheckUserLimit.has_permission`: after the
`IsCompanyAdmin` check (its result passed in as `basic`), POST requests are
denied when the count of active memberships has reached `plan.max_users`. -/
def CheckUserLimit_has_permission (basic : PermResult) (method : String)
    (plan : SubscriptionPlan) (active_users : Nat) : PermResult :=
  match basic with
  | .refused => .refused
  | .denied m => .denied m
  | .granted =>
    if method != "POST" then .granted
    else if (active_users : Int) ≥ plan.max_users then
      .denied ("User limit (" ++ toString plan.max_users ++
        ") reached. Please upgrade your subscription plan.")
    else .granted

/-- `timezone.now().replace(day=1)`: the day of the month is set to 1, but
the time of day is kept (the code does not zero hour/minute/second, unlike
the rate limiter's hour truncation). -/
def monthAnchorCode (now : DateTime) : DateTime :=
  { date := { now.date with day := 1 }, sec := now.sec }

/-- The monthly transaction count used by `CheckTransactionLimit`,
`check_subscription_limits` and `CompanyStatusView`: the number of the
tenant's transactions with `created_at >= timezone.now().replace(day=1)`.
The tenant's transaction timestamps are passed in as `txs`. -/
def monthly_transaction_count (txs : List DateTime) (now : DateTime) : Nat :=
  (txs.filter (fun t => DateTime.leB (monthAnchorCode now) t)).length

/-- Modelled from the spec: the calendar-month window of §4.3 and claim C5,
counting exactly the transactions created from the start of day 1 of the
current month through `now`. Stated for comparison with
`monthly_transaction_count`, which embeds the code. -/
def monthlyCountSpec (txs : List DateTime) (now : DateTime) : Nat :=
  (txs.filter (fun t =>
    DateTime.leB { date := { now.date with day := 1 }, sec := 0 } t && DateTime.leB t now)).length

/-- The decision of `RateLimitMiddleware.process_request` for one request:
either a 429 `JsonResponse` whose payload carries `limit` and `remaining`,
or admission with `request.rate_limit_remaining` / `request.rate_limit_limit`
set for the response headers. -/
inductive RateDecision where
  | reject (status : Nat) (limit : Nat) (remaining : Nat)
  | admitted (rate_limit_remaining : Nat) (rate_limit_limit : Nat)
deriving DecidableEq, Repr

/-- The `rate_limits` table of `RateLimitMiddleware.process_request`. -/
def rate_limits : List (String × Nat) :=
  [("trial", 100), ("basic", 500), ("growth", 2000), ("enterprise", 10000)]

/-- `rate_limits.get(plan_name, 100)`: the hourly ceiling for a plan name,
defaulting to 100 for unrecognized names. -/
def hourlyLimit (plan_name : String) : Nat :=
  (rate_limits.lookup plan_name).getD 100

/-- `RateLimitMiddleware.process_request` for a request that reaches the
rate check (company context present, API path, non-auth), with the count of
the tenant's `APIUsageLog` rows in the current hour bucket passed in as
`hourly_requests`: reject with 429 when `hourly_requests >= limit`,
otherwise admit and record `limit - hourly_requests` as the remaining
quota. -/
def RateLimit_process_request (plan_name : String) (hourly_requests : Nat) : RateDecision :=
  let limit := hourlyLimit plan_name
  if hourly_requests ≥ limit then .reject 429 limit 0
  else .admitted (limit - hourly_requests) limit

/-- `RateLimitMiddleware.process_response`: when the request was admitted
(`request.rate_limit_remaining` was set), the rate-limit headers are added
to the response; `resetEpoch` stands for the computed epoch second of the
next hour bucket. On a rejected request the attribute was never set, so no
headers are added. -/
def RateLimit_process_response (d : RateDecision) (resetEpoch : Nat) : List (String × String) :=
  match d with
  | .admitted remaining limit =>
    [("X-RateLimit-Limit", toString limit),
     ("X-RateLimit-Remaining", toString remaining),
     ("X-RateLimit-Reset", toString resetEpoch)]
  | .reject _ _ _ => []

/-- Every call that reaches the gate is logged by
`CompanyMiddleware.process_response` (admitted or rejected), so within one
hour bucket the k-th call (1-indexed) of a tenant sees `k - 1` prior rows.
`runBucket n` returns the log-row count after `n` calls together with the
decisions of calls 1..n, each taken on the count at its arrival. -/
def runBucket (plan_name : String) : Nat → Nat × List RateDecision
  | 0 => (0, [])
  | n + 1 =>
    let p := runBucket plan_name n
    (p.1 + 1, p.2 ++ [RateLimit_process_request plan_name p.1])

/-- `request.path.startswith('/api/')`: string prefix test, on the
underlying character lists. -/
def startsWithB (s pre : String) : Bool :=
  pre.data.isPrefixOf s.data

/-- Character-list containment: `pat` occurs contiguously in the second
list. -/
def containsSeq (pat : List Char) : List Char → Bool
  | [] => pat.isEmpty
  | c :: t => pat.isPrefixOf (c :: t) || containsSeq pat t

/-- `value in path` on strings (`'/auth/' in request.path`): substring
containment, on the underlying character lists. -/
def strContains (s pat : String) : Bool :=
  containsSeq pat.data s.data

/-- The outcome of `CompanyMiddleware.process_request`: `proceed` models
returning `None`, `reject` a `JsonResponse` with the given HTTP status,
`error` and `detail` fields, and optional `subscription_status` field. -/
inductive GateResponse where
  | proceed
  | reject (status : Nat) (error : String) (detail : String) (subscription_status : Option String)
deriving DecidableEq, Repr

/-- `CompanyMiddleware.process_request`, with the membership lookup passed
in as `membership` (`none` when `CompanyUser.DoesNotExist`): skips non-API
and auth paths, rejects expired trials, suspended and cancelled
subscriptions with 402 and distinct `subscription_status` values, and
rejects missing company association with 403 except on profile paths. -/
def Company_process_request (path : String) (authenticated : Bool)
    (membership : Option Company) (today : Date) : GateResponse :=
  if !(startsWithB path "/api/") || strContains path "/auth/" then .proceed
  else if authenticated then
    match membership with
    | some company =>
      if company.subscription_status == "TRIAL" &&
          endDateBefore company.subscription_end_date today then
        .reject 402 "Trial subscription expired"
          "Please upgrade your subscription to continue using the service." (some "EXPIRED")
      else if company.subscription_status == "SUSPENDED" then
        .reject 402 "Subscription suspended"
          "Your subscription has been suspended. Please contact support." (some "SUSPENDED")
      else if company.subscription_status == "CANCELLED" then
        .reject 402 "Subscription cancelled"
          "Your subscription has been cancelled. Please reactivate to continue." (some "CANCELLED")
      else .proceed
    | none =>
      if !(strContains path "/profile/") then
        .reject 403 "No company association" "User is not associated with any company." none
      else .proceed
  else .proceed

/-- The observable database state touched by `RegisterView.post`: existing
auth users (by username), their emails, the names of existing subscription
plans, the companies, and the (company, user) membership links. -/
structure Store where
  users : List String
  emails : List String
  planNames : List String
  companies : List String
  memberships : List (String × String)
deriving DecidableEq, Repr

/-- The request payload of `RegisterView.post` as far as the write sequence
is concerned: the new user's username and email, the company name, and the
outcomes of the two serializer validations. -/
structure RegInput where
  username : String
  email : String
  companyName : String
  companyValid : Bool
  userValid : Bool
deriving DecidableEq, Repr

/-- The body of `RegisterView.post` inside `db_transaction.atomic()`:
validation early-returns (400), then the four writes — create user, get or
create the trial plan, create the company, create the membership — ending
in a 201. `fault = some i` injects an unexpected exception at point `i` of
the sequence (0 = before any write, 1..4 = right after each write),
modelling the spec's "unexpected exceptions during registration";
`.error` models the exception propagating out of the `with` block. -/
def registerCore (inp : RegInput) (fault : Option Nat) (s : Store) :
    Except String (Store × Nat) :=
  if fault == some 0 then .error "unexpected exception"
  else if !inp.companyValid then .ok (s, 400)
  else if !inp.userValid then .ok (s, 400)
  else if s.users.contains inp.username then .ok (s, 400)
  else if s.emails.contains inp.email then .ok (s, 400)
  else
    let s1 : Store := { s with users := inp.username :: s.users, emails := inp.email :: s.emails }
    if fault == some 1 then .error "unexpected exception"
    else
      let s2 : Store :=
        if s1.planNames.contains "trial" then s1
        else { s1 with planNames := "trial" :: s1.planNames }
      if fault == some 2 then .error "unexpected exception"
      else
        let s3 : Store := { s2 with companies := inp.companyName :: s2.companies }
        if fault == some 3 then .error "unexpected exception"
        else
          let s4 : Store :=
            { s3 with memberships := (inp.companyName, inp.username) :: s3.memberships }
          if fault == some 4 then .error "unexpected exception"
          else .ok (s4, 201)

/-- `with db_transaction.atomic():` around a block, plus the
`except Exception` handler of `RegisterView.post`: when the block raises,
every write inside it is rolled back (the store reverts to `s`) and the
view returns 500; when it returns normally, its writes commit. -/
def atomicRun (f : Store → Except String (Store × Nat)) (s : Store) : Store × Nat :=
  match f s with
  | .ok r => r
  | .error _ => (s, 500)

/-- `RegisterView.post`: the registration sequence under
`db_transaction.atomic()` with fault injection. -/
def RegisterView_post (inp : RegInput) (fault : Option Nat) (s : Store) : Store × Nat :=
  atomicRun (registerCore inp fault) s

/-- The store after a fully committed registration: all four writes of
`registerCore` applied. -/
def registerCommit (inp : RegInput) (s : Store) : Store :=
  let s1 : Store := { s with users := inp.username :: s.users, emails := inp.email :: s.emails }
  let s2 : Store :=
    if s1.planNames.contains "trial" then s1
    else { s1 with planNames := "trial" :: s1.planNames }
  let s3 : Store := { s2 with companies := inp.companyName :: s2.companies }
  { s3 with memberships := (inp.companyName, inp.username) :: s3.memberships }

/-- A response as seen by the middleware: status code, headers, body. -/
structure HttpResponse where
  status_code : Nat
  headers : List (String × String)
  content : String
deriving DecidableEq, Repr

/-- A row of `api_usage_logs` as created by
`CompanyMiddleware._log_api_usage`. -/
structure APIUsageLog where
  endpoint : String
  method : String
  status_code : Nat
  request_size_bytes : Nat
  response_size_bytes : Nat
deriving DecidableEq, Repr

/-- `CompanyMiddleware._log_api_usage`: builds the usage row from the
request and response and persists it inside its own try/except, so a
failing `APIUsageLog.objects.create` (modelled by `createFails = true`)
leaves the log table unchanged and raises nothing. -/
def log_api_usage (path method : String) (response : HttpResponse)
    (reqSize : Nat) (logs : List APIUsageLog) (createFails : Bool) : List APIUsageLog :=
  if createFails then logs
  else
    { endpoint := path, method := method, status_code := response.status_code,
      request_size_bytes := reqSize, response_size_bytes := response.content.length } :: logs

/-- `CompanyMiddleware.process_response`: when the request carries a
company context on an API non-auth path, `_log_api_usage` is attempted
inside try/except; in every case the response already produced by the
handler is returned unchanged. Returns (response, log table). -/
def Company_process_response (hasCompanyUser : Bool) (path method : String)
    (response : HttpResponse) (reqSize : Nat) (logs : List APIUsageLog)
    (createFails : Bool) : HttpResponse × List APIUsageLog :=
  if hasCompanyUser && startsWithB path "/api/" && !(strContains path "/auth/") then
    (response, log_api_usage path method response reqSize logs createFails)
  else (response, logs)

theorem ltB_irrefl (d : Date) : Date.ltB d d = false := by
  simp [Date.ltB]

/-- Claim C3: for every (status, start_date, end_date, now), the
subscription state evaluation yields exactly one of VALID, TRIAL_EXPIRED,
SUSPENDED, CANCELLED: SUSPENDED iff status == SUSPENDED, CANCELLED iff
status == CANCELLED, TRIAL_EXPIRED iff status == TRIAL and end_date is set
and strictly before today (so a TRIAL with end_date == today is still
VALID, and with end_date the previous day is TRIAL_EXPIRED), and VALID
otherwise; the middleware's check order agrees with the spec's precedence
order on every input. -/
theorem C3_subscription_state_evaluation (status : String) (start_date end_date : Option Date)
    (today : Date) :
    evalStateMiddleware status end_date today = evalStateSpec status start_date end_date today
    ∧ (evalStateMiddleware status end_date today = .SUSPENDED ↔ status = "SUSPENDED")
    ∧ (evalStateMiddleware status end_date today = .CANCELLED ↔ status = "CANCELLED")
    ∧ (evalStateMiddleware status end_date today = .TRIAL_EXPIRED ↔
        (status = "TRIAL" ∧ endDateBefore end_date today = true))
    ∧ (¬(status = "SUSPENDED" ∨ status = "CANCELLED" ∨
          (status = "TRIAL" ∧ endDateBefore end_date today = true)) →
        evalStateMiddleware status end_date today = .VALID)
    ∧ evalStateMiddleware "TRIAL" (some today) today = .VALID
    ∧ evalStateMiddleware "TRIAL" (some ⟨2024, 1, 10⟩) ⟨2024, 1, 11⟩ = .TRIAL_EXPIRED := by
  refine ⟨?_, ?_, ?_, ?_, ?_, ?_, by decide⟩
  · unfold evalStateMiddleware evalStateSpec
    by_cases hS : status = "SUSPENDED" <;> by_cases hC : status = "CANCELLED" <;>
      by_cases hT : status = "TRIAL" <;> simp_all
  · unfold evalStateMiddleware
    by_cases hS : status = "SUSPENDED" <;> by_cases hC : status = "CANCELLED" <;>
      by_cases hT : status = "TRIAL" <;> simp_all <;>
      cases endDateBefore end_date today <;> simp_all
  · unfold evalStateMiddleware
    by_cases hS : status = "SUSPENDED" <;> by_cases hC : status = "CANCELLED" <;>
      by_cases hT : status = "TRIAL" <;> simp_all <;>
      cases endDateBefore end_date today <;> simp_all
  · unfold evalStateMiddleware
    by_cases hT : status = "TRIAL" <;> by_cases hS : status = "SUSPENDED" <;>
      by_cases hC : status = "CANCELLED" <;> simp_all <;>
      cases h : endDateBefore end_date today <;> simp_all
  · intro h
    unfold evalStateMiddleware
    by_cases hT : status = "TRIAL" <;> by_cases hS : status = "SUSPENDED" <;>
      by_cases hC : status = "CANCELLED" <;> simp_all <;>
      cases h2 : endDateBefore end_date today <;> simp_all
  · simp [evalStateMiddleware, endDateBefore, ltB_irrefl]

/-- Witness for C3: an ACTIVE company with no end date evaluates to VALID
via the "otherwise" clause. -/
theorem C3_subscription_state_evaluation_witness :
    evalStateMiddleware "ACTIVE" none ⟨2024, 5, 1⟩ = SubState.VALID :=
  (C3_subscription_state_evaluation "ACTIVE" none none ⟨2024, 5, 1⟩).2.2.2.2.1 (by decide)

theorem lookup_none_iff_keyMem (f : String) (fs : List (String × JsonVal)) :
    fs.lookup f = none ↔ keyMem f fs = false := by
  induction fs with
  | nil => simp [keyMem]
  | cons kv rest ih =>
    by_cases h : f = kv.1
    · simp [keyMem, List.lookup, h]
    · simp only [keyMem, List.lookup, List.any_cons] at *
      have hb : (f == kv.1) = false := by simp [h]
      have hb2 : (kv.1 == f) = false := by simp [Ne.symm h]
      simp [hb, hb2, ih]

/-- Modelled from the spec: the feature condition of §4.2, "the feature key
is present (and truthy, where the value type is boolean) in the plan's
feature map". Stated for comparison with the code's two feature checks. -/
def presentAndTruthyWhenBool (fs : List (String × JsonVal)) (f : String) : Bool :=
  match fs.lookup f with
  | none => false
  | some (.b x) => x
  | some _ => true

/-- The feature map of the trial plan as created by
`utils/subscriptions.py:create_trial_subscription`. -/
def trialFeatures : List (String × JsonVal) :=
  [("basic_edi", .b true), ("trading_partners", .i 5), ("reports", .s "basic"),
   ("support", .s "email"), ("api_access", .b true), ("scbn_integration", .b true),
   ("custom_reports", .b false), ("sla_monitoring", .b false), ("priority_support", .b false)]

/-- The trial plan row as created by `create_trial_subscription` with the
default settings (3 users, 100 monthly transactions). -/
def trialPlan : SubscriptionPlan :=
  { name := "trial", max_users := 3, max_transactions_monthly := 100,
    features := some trialFeatures, is_active := true }

/-- A company on the trial plan with status ACTIVE and no end date. -/
def companyA : Company :=
  { subscription_plan := some trialPlan, subscription_status := "ACTIVE",
    subscription_start_date := none, subscription_end_date := none }

/-- A sample evaluation date. -/
def dayA : Date := ⟨2024, 3, 15⟩

/-- Counterexample to claim C1 as stated: `companyA`'s subscription state
evaluates to VALID and the feature `custom_reports` is present in the trial
plan's feature map with the boolean value `False` (so it is not "present
and truthy"), yet `subscription.py:is_feature_available` returns true,
because it tests key presence (`feature_name in features`), not
truthiness. -/
theorem C1_counterexample :
    ¬ (is_feature_available companyA "custom_reports" dayA = true ↔
        (evalStateMiddleware companyA.subscription_status companyA.subscription_end_date dayA
            = SubState.VALID
         ∧ presentAndTruthyWhenBool (featuresOrEmpty trialPlan) "custom_reports" = true)) := by
  decide

/-- Claim C1 amended: `HasSubscriptionFeature` (for an authenticated user
with an active membership) grants exactly when the subscription state
evaluates to VALID and the feature's value in the plan's feature map
(defaulting to False when absent) is truthy; `subscription.py`'s
`is_feature_available` instead returns true exactly when the plan is
active, the status is ACTIVE or TRIAL, the end date (if set) is not in the
past, and the feature key is *present* in the feature map — presence
suffices even when the stored value is boolean False. For every feature
name absent from the feature map, both checks reject. -/
theorem C1_amended_feature_availability (plan : SubscriptionPlan) (status : String)
    (sd ed : Option Date) (f : String) (today : Date) :
    (HasSubscriptionFeature_has_permission true (some ⟨some plan, status, sd, ed⟩) today (some f)
        = .granted ↔
      (evalStateMiddleware status ed today = .VALID
       ∧ JsonVal.truthy (((featuresOrEmpty plan).lookup f).getD (.b false)) = true))
    ∧ (is_feature_available ⟨some plan, status, sd, ed⟩ f today = true ↔
        (plan.is_active = true
         ∧ (status = "ACTIVE" ∨ status = "TRIAL")
         ∧ endDateBefore ed today = false
         ∧ keyMem f (featuresOrEmpty plan) = true))
    ∧ ((featuresOrEmpty plan).lookup f = none →
        is_feature_available ⟨some plan, status, sd, ed⟩ f today = false
        ∧ HasSubscriptionFeature_has_permission true (some ⟨some plan, status, sd, ed⟩) today
            (some f) ≠ .granted) := by
  refine ⟨?_, ?_, ?_⟩
  · unfold HasSubscriptionFeature_has_permission IsCompanyUser_has_permission evalStateMiddleware
    by_cases hS : status = "SUSPENDED" <;> by_cases hC : status = "CANCELLED" <;>
      by_cases hT : status = "TRIAL" <;>
      simp_all <;> cases h : endDateBefore ed today <;>
      cases ht : JsonVal.truthy (((featuresOrEmpty plan).lookup f).getD (.b false)) <;>
      simp_all
  · unfold is_feature_available
    by_cases hA : status = "ACTIVE" <;> by_cases hT : status = "TRIAL" <;>
      simp_all <;> cases hp : plan.is_active <;>
      cases h : endDateBefore ed today <;> simp_all
  · intro hnone
    have hkm : keyMem f (featuresOrEmpty plan) = false := (lookup_none_iff_keyMem f _).mp hnone
    have htr : JsonVal.truthy (((featuresOrEmpty plan).lookup f).getD (.b false)) = false := by
      rw [hnone]; rfl
    clear hnone
    constructor
    · unfold is_feature_available
      by_cases hA : status = "ACTIVE" <;> by_cases hT : status = "TRIAL" <;>
        simp_all <;> cases hp : plan.is_active <;>
        cases h : endDateBefore ed today <;> simp_all
    · unfold HasSubscriptionFeature_has_permission IsCompanyUser_has_permission
      by_cases hS : status = "SUSPENDED" <;> by_cases hC : status = "CANCELLED" <;>
        by_cases hT : status = "TRIAL" <;>
        simp_all <;> cases h : endDateBefore ed today <;> simp_all

/-- Witness for C1's amended claim: the feature `white_labeling` is absent
from the trial plan's map, and both checks reject it for `companyA`. -/
theorem C1_amended_feature_availability_witness :
    is_feature_available ⟨some trialPlan, "ACTIVE", none, none⟩ "white_labeling" dayA = false
    ∧ HasSubscriptionFeature_has_permission true (some ⟨some trialPlan, "ACTIVE", none, none⟩)
        dayA (some "white_labeling") ≠ PermResult.granted :=
  (C1_amended_feature_availability trialPlan "ACTIVE" none none "white_labeling" dayA).2.2
    (by decide)

/-- Claim C10: when the company's plan reference is missing, or the plan is
inactive, `subscription.py:is_feature_available` returns false for every
feature name, status and set of dates. -/
theorem C10_inactive_plan_disables_features (name : String) (mu mt : Int)
    (fs : Option (List (String × JsonVal))) (status : String) (sd ed : Option Date)
    (f : String) (today : Date) :
    is_feature_available ⟨none, status, sd, ed⟩ f today = false
    ∧ is_feature_available ⟨some ⟨name, mu, mt, fs, false⟩, status, sd, ed⟩ f today = false := by
  constructor
  · rfl
  · unfold is_feature_available
    simp

/-- A plan whose limit fields hold -1, the value the spec calls
"unlimited". -/
def unlimitedPlan : SubscriptionPlan :=
  { name := "custom", max_users := -1, max_transactions_monthly := -1,
    features := some [], is_active := true }

/-- Counterexample to claim C2 as stated: with `max_users = -1` and
`max_transactions_monthly = -1` the enforcer does not admit — even at a
current count of 0 it rejects, because the code compares
`current_count >= max_count` with no special case for -1 and every count
is ≥ -1. -/
theorem C2_counterexample :
    (check_subscription_limits unlimitedPlan "users" 0 0).1 = false
    ∧ (check_subscription_limits unlimitedPlan "transactions" 0 0).1 = false
    ∧ CheckUserLimit_has_permission .granted "POST" unlimitedPlan 0 ≠ PermResult.granted
    ∧ CheckTransactionLimit_has_permission .granted "POST" unlimitedPlan 0
        ≠ PermResult.granted := by
  decide

/-- Claim C2 amended: the limit enforcer rejects a creation request exactly
when the current count is ≥ the plan's ceiling, with no special case for
any ceiling value: in particular a ceiling of -1 always rejects (counts are
nonnegative), rather than meaning unlimited. -/
theorem C2_amended_limit_enforcement (plan : SubscriptionPlan) (userCount txCount : Nat) :
    ((check_subscription_limits plan "users" userCount txCount).1 = false ↔
      (userCount : Int) ≥ plan.max_users)
    ∧ ((check_subscription_limits plan "transactions" userCount txCount).1 = false ↔
      (txCount : Int) ≥ plan.max_transactions_monthly)
    ∧ (CheckUserLimit_has_permission .granted "POST" plan userCount = .granted ↔
      (userCount : Int) < plan.max_users)
    ∧ (CheckTransactionLimit_has_permission .granted "POST" plan txCount = .granted ↔
      (txCount : Int) < plan.max_transactions_monthly)
    ∧ (plan.max_users = -1 →
      (check_subscription_limits plan "users" userCount txCount).1 = false
      ∧ CheckUserLimit_has_permission .granted "POST" plan userCount ≠ .granted)
    ∧ (plan.max_transactions_monthly = -1 →
      (check_subscription_limits plan "transactions" userCount txCount).1 = false
      ∧ CheckTransactionLimit_has_permission .granted "POST" plan txCount ≠ .granted) := by
  refine ⟨?_, ?_, ?_, ?_, ?_, ?_⟩
  · by_cases h2 : (userCount : Int) ≥ plan.max_users <;>
      simp [check_subscription_limits, h2]
  · by_cases h2 : (txCount : Int) ≥ plan.max_transactions_monthly <;>
      simp [check_subscription_limits, h2]
  · unfold CheckUserLimit_has_permission
    split_ifs with h1 h2 <;> simp_all
  · unfold CheckTransactionLimit_has_permission
    split_ifs with h1 h2 <;> simp_all
  · intro h
    have h2 : (userCount : Int) ≥ plan.max_users := by omega
    refine ⟨?_, ?_⟩
    · simp [check_subscription_limits, h2]
    · unfold CheckUserLimit_has_permission
      split_ifs with h1 h3 <;> simp_all
  · intro h
    have h2 : (txCount : Int) ≥ plan.max_transactions_monthly := by omega
    refine ⟨?_, ?_⟩
    · simp [check_subscription_limits, h2]
    · unfold CheckTransactionLimit_has_permission
      split_ifs with h1 h3 <;> simp_all

/-- Witness for C2's amended claim at the -1 plan with counts of 0. -/
theorem C2_amended_limit_enforcement_witness :
    ((check_subscription_limits unlimitedPlan "users" 0 0).1 = false
      ∧ CheckUserLimit_has_permission .granted "POST" unlimitedPlan 0 ≠ PermResult.granted)
    ∧ ((check_subscription_limits unlimitedPlan "transactions" 0 0).1 = false
      ∧ CheckTransactionLimit_has_permission .granted "POST" unlimitedPlan 0
          ≠ PermResult.granted) :=
  ⟨(C2_amended_limit_enforcement unlimitedPlan 0 0).2.2.2.2.1 (by decide),
   (C2_amended_limit_enforcement unlimitedPlan 0 0).2.2.2.2.2 (by decide)⟩

/-- An evaluation instant for the month window: 2024-03-15 14:30:00
(52200 seconds into the day). -/
def c5Now : DateTime := ⟨⟨2024, 3, 15⟩, 52200⟩

/-- A transaction created 2024-03-01 09:00:00 (32400 seconds into the
day): within the current calendar month, on day 1, before 14:30. -/
def c5Tx : DateTime := ⟨⟨2024, 3, 1⟩, 32400⟩

/-- Claim C5 names a code bug: `timezone.now().replace(day=1)` keeps the
current time of day, so at 2024-03-15 14:30 the window starts at
2024-03-01 14:30, and a transaction created 2024-03-01 09:00 — inside the
calendar month the code's own `current_month` variable claims to count —
is excluded, while the spec's calendar-month window counts it. -/
theorem C5_month_window_code_bug :
    monthAnchorCode c5Now = ⟨⟨2024, 3, 1⟩, 52200⟩
    ∧ monthly_transaction_count [c5Tx] c5Now = 0
    ∧ monthlyCountSpec [c5Tx] c5Now = 1 := by
  decide

/-- Counterexample to claim C4 as stated: for an enterprise tenant with
9999 usage rows in the current hour bucket the next request is admitted,
but its X-RateLimit-Remaining header carries "1", not "0" — the remaining
quota is computed as `limit - hourly_requests` from the count taken before
the request itself is logged. -/
theorem C4_counterexample :
    ¬ ((RateLimit_process_response (RateLimit_process_request "enterprise" 9999)
          1710000000).lookup "X-RateLimit-Remaining" = some "0") := by
  decide

/-- Claim C4 amended: for an enterprise tenant (hourly limit 10000) with
exactly 9999 usage rows in the current hour bucket, the next request is
admitted and its response carries X-RateLimit-Remaining with value 1 (the
in-flight request is not yet counted); the request after that, with 10000
rows in the same bucket, is rejected with HTTP status 429. -/
theorem C4_amended_enterprise_boundary (resetEpoch : Nat) :
    RateLimit_process_request "enterprise" 9999 = RateDecision.admitted 1 10000
    ∧ (RateLimit_process_response (RateLimit_process_request "enterprise" 9999)
          resetEpoch).lookup "X-RateLimit-Remaining" = some "1"
    ∧ RateLimit_process_request "enterprise" 10000 = RateDecision.reject 429 10000 0 := by
  have h : RateLimit_process_request "enterprise" 9999 = RateDecision.admitted 1 10000 := by decide
  refine ⟨h, ?_, by decide⟩
  rw [h]
  simp only [RateLimit_process_response, List.lookup]
  rfl

theorem runBucket_count (p : String) (n : Nat) : (runBucket p n).1 = n := by
  induction n with
  | zero => rfl
  | succ n ih => simp [runBucket, ih]

theorem runBucket_length (p : String) (n : Nat) : (runBucket p n).2.length = n := by
  induction n with
  | zero => rfl
  | succ n ih => simp [runBucket, ih]

theorem runBucket_get (p : String) (n k : Nat) (h : k < n) :
    (runBucket p n).2[k]? = some (RateLimit_process_request p k) := by
  induction n with
  | zero => omega
  | succ n ih =>
    simp only [runBucket]
    rcases Nat.lt_or_ge k n with hk | hk
    · rw [List.getElem?_append, runBucket_length]
      simp only [hk, if_pos]
      exact ih hk
    · have hkn : k = n := by omega
      subst hkn
      rw [List.getElem?_append, runBucket_length]
      simp [runBucket_count]

theorem hourlyLimit_cases (p : String) :
    hourlyLimit p = 100 ∨ hourlyLimit p = 500 ∨ hourlyLimit p = 2000 ∨
      hourlyLimit p = 10000 := by
  by_cases h1 : p = "trial"
  · simp [hourlyLimit, rate_limits, List.lookup, h1]
  by_cases h2 : p = "basic"
  · simp [hourlyLimit, rate_limits, List.lookup, h2]
  by_cases h3 : p = "growth"
  · simp [hourlyLimit, rate_limits, List.lookup, h3]
  by_cases h4 : p = "enterprise"
  · simp [hourlyLimit, rate_limits, List.lookup, h4]
  have hb1 : (p == "trial") = false := by simp [h1]
  have hb2 : (p == "basic") = false := by simp [h2]
  have hb3 : (p == "growth") = false := by simp [h3]
  have hb4 : (p == "enterprise") = false := by simp [h4]
  simp [hourlyLimit, rate_limits, List.lookup, hb1, hb2, hb3, hb4]

/-- Claim C6: the rate limiter's hourly ceilings are trial=100, basic=500,
growth=2000, enterprise=10000, any other plan name defaults to 100; and in
a bucket where every call is logged, for limit L the L-th call (index
L-1 in the decision list) is admitted and the (L+1)-th call (index L) is
rejected with 429 and remaining 0 in the rejection payload. -/
theorem C6_rate_limit_table_and_boundary (plan_name : String) (n : Nat) :
    hourlyLimit "trial" = 100 ∧ hourlyLimit "basic" = 500 ∧ hourlyLimit "growth" = 2000
    ∧ hourlyLimit "enterprise" = 10000
    ∧ (plan_name ≠ "trial" → plan_name ≠ "basic" → plan_name ≠ "growth" →
        plan_name ≠ "enterprise" → hourlyLimit plan_name = 100)
    ∧ (runBucket plan_name n).1 = n
    ∧ (∀ L, L = hourlyLimit plan_name →
        (runBucket plan_name (L + 1)).2[L - 1]? = some (RateDecision.admitted 1 L)
        ∧ (runBucket plan_name (L + 1)).2[L]? = some (RateDecision.reject 429 L 0)) := by
  refine ⟨by decide, by decide, by decide, by decide, ?_, runBucket_count plan_name n, ?_⟩
  · intro h1 h2 h3 h4
    have hb1 : (plan_name == "trial") = false := by simp [h1]
    have hb2 : (plan_name == "basic") = false := by simp [h2]
    have hb3 : (plan_name == "growth") = false := by simp [h3]
    have hb4 : (plan_name == "enterprise") = false := by simp [h4]
    simp [hourlyLimit, rate_limits, List.lookup, hb1, hb2, hb3, hb4]
  · intro L hL
    have hpos : 1 ≤ L := by
      rcases hourlyLimit_cases plan_name with h | h | h | h <;> omega
    have hA : (runBucket plan_name (L + 1)).2[L - 1]? =
        some (RateLimit_process_request plan_name (L - 1)) :=
      runBucket_get plan_name (L + 1) (L - 1) (by omega)
    have hB : (runBucket plan_name (L + 1)).2[L]? =
        some (RateLimit_process_request plan_name L) :=
      runBucket_get plan_name (L + 1) L (by omega)
    rw [hA, hB]
    unfold RateLimit_process_request
    rw [← hL]
    constructor
    · have hlt : ¬(L - 1 ≥ L) := by omega
      have hone : L - (L - 1) = 1 := by omega
      simp [hlt, hone]
    · simp

/-- Witness for C6 at an unrecognized plan name: the default ceiling is
100, the 100th call is admitted, the 101st is rejected with 429 and
remaining 0. -/
theorem C6_rate_limit_table_and_boundary_witness :
    hourlyLimit "platinum" = 100
    ∧ (runBucket "platinum" 101).2[99]? = some (RateDecision.admitted 1 100)
    ∧ (runBucket "platinum" 101).2[100]? = some (RateDecision.reject 429 100 0) :=
  ⟨(C6_rate_limit_table_and_boundary "platinum" 0).2.2.2.2.1
      (by decide) (by decide) (by decide) (by decide),
   ((C6_rate_limit_table_and_boundary "platinum" 0).2.2.2.2.2.2 100 (by decide)).1,
   ((C6_rate_limit_table_and_boundary "platinum" 0).2.2.2.2.2.2 100 (by decide)).2⟩

/-- Claim C7: on an API non-auth path for an authenticated user, the gate's
rejections carry the mandated status and machine-readable reason: a
TRIAL_EXPIRED state yields 402 with subscription_status "EXPIRED", a
SUSPENDED state 402 with "SUSPENDED", a CANCELLED state 402 with
"CANCELLED" (three distinct values), a missing membership yields 403 on
non-profile paths, and a full hour bucket yields 429 from the rate
limiter. -/
theorem C7_gate_rejection_codes (path : String) (company : Company) (today : Date)
    (hapi : startsWithB path "/api/" = true) (hauth2 : strContains path "/auth/" = false) :
    (evalStateMiddleware company.subscription_status company.subscription_end_date today
        = .TRIAL_EXPIRED →
      Company_process_request path true (some company) today
        = .reject 402 "Trial subscription expired"
            "Please upgrade your subscription to continue using the service." (some "EXPIRED"))
    ∧ (evalStateMiddleware company.subscription_status company.subscription_end_date today
        = .SUSPENDED →
      Company_process_request path true (some company) today
        = .reject 402 "Subscription suspended"
            "Your subscription has been suspended. Please contact support." (some "SUSPENDED"))
    ∧ (evalStateMiddleware company.subscription_status company.subscription_end_date today
        = .CANCELLED →
      Company_process_request path true (some company) today
        = .reject 402 "Subscription cancelled"
            "Your subscription has been cancelled. Please reactivate to continue."
            (some "CANCELLED"))
    ∧ (strContains path "/profile/" = false →
      Company_process_request path true none today
        = .reject 403 "No company association" "User is not associated with any company." none)
    ∧ (∀ plan_name hourly, hourlyLimit plan_name ≤ hourly →
        RateLimit_process_request plan_name hourly
          = .reject 429 (hourlyLimit plan_name) 0)
    ∧ ((some "EXPIRED" : Option String) ≠ some "SUSPENDED"
        ∧ (some "EXPIRED" : Option String) ≠ some "CANCELLED"
        ∧ (some "SUSPENDED" : Option String) ≠ some "CANCELLED") := by
  have hskip : (!(startsWithB path "/api/") || strContains path "/auth/") = false := by
    simp [hapi, hauth2]
  refine ⟨?_, ?_, ?_, ?_, ?_, by decide, by decide, by decide⟩
  · intro hstate
    unfold evalStateMiddleware at hstate
    unfold Company_process_request
    rw [hskip]
    by_cases hS : company.subscription_status = "SUSPENDED" <;>
      by_cases hC : company.subscription_status = "CANCELLED" <;>
      by_cases hT : company.subscription_status = "TRIAL" <;>
      simp_all <;>
      cases h : endDateBefore company.subscription_end_date today <;> simp_all
  · intro hstate
    unfold evalStateMiddleware at hstate
    unfold Company_process_request
    rw [hskip]
    by_cases hS : company.subscription_status = "SUSPENDED" <;>
      by_cases hC : company.subscription_status = "CANCELLED" <;>
      by_cases hT : company.subscription_status = "TRIAL" <;>
      simp_all <;>
      cases h : endDateBefore company.subscription_end_date today <;> simp_all
  · intro hstate
    unfold evalStateMiddleware at hstate
    unfold Company_process_request
    rw [hskip]
    by_cases hS : company.subscription_status = "SUSPENDED" <;>
      by_cases hC : company.subscription_status = "CANCELLED" <;>
      by_cases hT : company.subscription_status = "TRIAL" <;>
      simp_all <;>
      cases h : endDateBefore company.subscription_end_date today <;> simp_all
  · intro hprof
    unfold Company_process_request
    rw [hskip]
    simp [hprof]
  · intro plan_name hourly hle
    unfold RateLimit_process_request
    simp [hle]

/-- A company on the trial plan whose subscription is suspended. -/
def companySusp : Company :=
  { subscription_plan := some trialPlan, subscription_status := "SUSPENDED",
    subscription_start_date := none, subscription_end_date := none }

/-- Witness for C7: a suspended company on a concrete API path is rejected
with 402 and subscription_status "SUSPENDED", and a missing membership on
the same path is rejected with 403. -/
theorem C7_gate_rejection_codes_witness :
    Company_process_request "/api/transactions/" true (some companySusp) dayA
      = GateResponse.reject 402 "Subscription suspended"
          "Your subscription has been suspended. Please contact support." (some "SUSPENDED")
    ∧ Company_process_request "/api/transactions/" true none dayA
      = GateResponse.reject 403 "No company association"
          "User is not associated with any company." none :=
  ⟨(C7_gate_rejection_codes "/api/transactions/" companySusp dayA
      (by decide) (by decide)).2.1 (by decide),
   (C7_gate_rejection_codes "/api/transactions/" companySusp dayA
      (by decide) (by decide)).2.2.2.1 (by decide)⟩

/-- Claim C8: registration is all-or-nothing: whatever fault (if any) is
injected into the write sequence, the resulting store is either the
original one (every rejection and every unexpected exception, which the
`atomic` block rolls back and the handler turns into a 500) or the fully
committed store of a 201 success. -/
theorem C8_registration_atomicity (inp : RegInput) (fault : Option Nat) (s : Store) :
    ((RegisterView_post inp fault s).2 = 500 → (RegisterView_post inp fault s).1 = s)
    ∧ ((RegisterView_post inp fault s).1 = s
        ∨ ((RegisterView_post inp fault s).1 = registerCommit inp s
            ∧ (RegisterView_post inp fault s).2 = 201)) := by
  unfold RegisterView_post atomicRun registerCore registerCommit
  split_ifs <;> simp_all

/-- Witness for C8: a fault injected after the company write (point 3)
leaves the store unchanged and returns 500. -/
theorem C8_registration_atomicity_witness :
    (RegisterView_post ⟨"ada", "ada@x.com", "AdaCo", true, true⟩ (some 3)
        ⟨[], [], [], [], []⟩).2 = 500
    ∧ (RegisterView_post ⟨"ada", "ada@x.com", "AdaCo", true, true⟩ (some 3)
        ⟨[], [], [], [], []⟩).1 = ⟨[], [], [], [], []⟩ :=
  ⟨by decide,
   (C8_registration_atomicity ⟨"ada", "ada@x.com", "AdaCo", true, true⟩ (some 3)
      ⟨[], [], [], [], []⟩).1 (by decide)⟩

/-- Claim C9: for every request that reaches `process_response`, the
response object handed back to the caller is exactly the response already
produced by the handler, whether or not persisting the usage row raises
(`createFails`); and when it raises, the log table is left unchanged. -/
theorem C9_logging_failure_swallowed (hasCU : Bool) (path method : String)
    (response : HttpResponse) (reqSize : Nat) (logs : List APIUsageLog)
    (createFails : Bool) :
    (Company_process_response hasCU path method response reqSize logs createFails).1
      = response
    ∧ (Company_process_response hasCU path method response reqSize logs true).2 = logs := by
  unfold Company_process_response log_api_usage
  constructor
  · split_ifs <;> rfl
  · split_ifs <;> simp_all

end EdiTransactions
